import Mathlib

/-! Shallow embedding of the serial PID telemetry reader in `src/main.py`.

Python floats are modelled as exact rationals (ℚ) and wall-clock instants as
rational parameters.  Mutable object state becomes explicit state records and
the GUI callbacks become state-transition functions.  The regular expression
used by `MainWindow.handle_serial_data` is modelled by a hand-written
deterministic matcher that follows the regex structure token by token;
`re.match` anchors only at the start of the string, so the matcher returns
the unconsumed remainder as well. -/

/-- One value for each of the four telemetry channels T, SP, Erro, Saida.
Used both for the raw parsed sample (`self.data`) and for the filtered
values (`self.data_filt`). -/
structure Channels where
  T : ℚ
  SP : ℚ
  Erro : ℚ
  Saida : ℚ
deriving DecidableEq

/-- Longest digit run at the head of the character list, together with the
remainder.  Models the greedy `\d+` regex atom (restricted to ASCII digits;
the device protocol only ever produces ASCII). -/
def takeDigits : List Char → List Char × List Char
  | [] => ([], [])
  | c :: cs =>
    if c.isDigit then
      let p := takeDigits cs
      (c :: p.1, p.2)
    else ([], c :: cs)

/-- Numeric value of a digit string, most significant digit first. -/
def digitsVal (ds : List Char) : Nat :=
  ds.foldl (fun a c => 10 * a + (c.toNat - 48)) 0

/-- Exact value of the decimal literal `ip.fp`, as Python's `float()` would
produce it (idealised to an exact rational). -/
def uval (ip fp : List Char) : ℚ :=
  (digitsVal ip : ℚ) + (digitsVal fp : ℚ) / (10 : ℚ) ^ fp.length

/-- True when the list does not begin with a digit, so a preceding greedy
`\d+` cannot extend into it. -/
def noDigitHead : List Char → Bool
  | [] => true
  | c :: _ => !c.isDigit

/-- Match a literal character sequence at the head of the input, returning
the remainder. -/
def matchLit : List Char → List Char → Option (List Char)
  | [], cs => some cs
  | _ :: _, [] => none
  | l :: ls, c :: cs => if c = l then matchLit ls cs else none

/-- Literal text before the T value in the regex of `handle_serial_data`. -/
def litT : List Char := "T(°C)=".data

/-- Literal text before the SP value. -/
def litSP : List Char := " SP(°C)=".data

/-- Literal text before the Erro value. -/
def litErro : List Char := " Erro(V)=".data

/-- Literal text before the Saida value. -/
def litSaida : List Char := " Saida(V)=".data

/-- Match the regex atom `\d+\.\d+` (an unsigned decimal with mandatory
fractional part) at the head of the input. -/
def matchUFloat (cs : List Char) : Option (ℚ × List Char) :=
  let p := takeDigits cs
  if p.1 = [] then none
  else
    match p.2 with
    | '.' :: r2 =>
      let q := takeDigits r2
      if q.1 = [] then none else some (uval p.1 q.1, q.2)
    | _ => none

/-- Match the regex atom `-?\d+\.\d+` (optionally negated decimal) at the
head of the input. -/
def matchSFloat (cs : List Char) : Option (ℚ × List Char) :=
  if cs.head? = some '-' then (matchUFloat cs.tail).map fun p => (-p.1, p.2)
  else matchUFloat cs

/-- The full regex of `handle_serial_data`, applied with `re.match`
semantics: it must match from position 0 but need not consume the whole
line.  Returns the four captured values and the unconsumed remainder. -/
def reMatchRem (cs : List Char) : Option (Channels × List Char) :=
  (matchLit litT cs).bind fun r1 =>
  (matchUFloat r1).bind fun pt =>
  (matchLit litSP pt.2).bind fun r2 =>
  (matchUFloat r2).bind fun psp =>
  (matchLit litErro psp.2).bind fun r3 =>
  (matchSFloat r3).bind fun pe =>
  (matchLit litSaida pe.2).bind fun r4 =>
  (matchSFloat r4).map fun psa =>
  (⟨pt.1, psp.1, pe.1, psa.1⟩, psa.2)

/-- The line parser of `handle_serial_data`: `re.match(...)` followed by
`float` conversion of the four captured groups.  `none` models a failed
match (the Python code then skips the line). -/
def parse (line : String) : Option Channels :=
  (reMatchRem line.data).map Prod.fst

/-- Whether the regex match consumed the whole line, i.e. the line matches
the documented schema exactly with no trailing characters. -/
def matchesExactly (line : String) : Bool :=
  match reMatchRem line.data with
  | some (_, []) => true
  | _ => false

/-- The sample line given in the source comment of `handle_serial_data`. -/
def goodLine : String := "T(°C)=48.9 SP(°C)=50.3 Erro(V)=0.01 Saida(V)=2.93"

/-- The values carried by `goodLine`, in the exact shape the matcher
produces them. -/
def goodVal : Channels :=
  ⟨uval ['4', '8'] ['9'], uval ['5', '0'] ['3'],
   uval ['0'] ['0', '1'], uval ['2'] ['9', '3']⟩

/-- A line whose four values are all 5.0, for concrete filter scenarios. -/
def lineFive : String := "T(°C)=5.0 SP(°C)=5.0 Erro(V)=5.0 Saida(V)=5.0"

/-- The values carried by `lineFive`. -/
def valFive : Channels :=
  ⟨uval ['5'] ['0'], uval ['5'] ['0'], uval ['5'] ['0'], uval ['5'] ['0']⟩

/-- The sample line of the source comment parses to its four values. -/
theorem parse_goodLine : parse goodLine = some goodVal := rfl

/-- The all-fives line parses to its four values. -/
theorem parse_lineFive : parse lineFive = some valFive := rfl

/-- The sample line of the source comment matches the schema exactly. -/
theorem matchesExactly_goodLine : matchesExactly goodLine = true := by decide

/-- A row of the CSV file: either the header row `T,SP,Erro,Saida` written
by `start_reading`, or a data row of the four filtered values written by
`handle_serial_data`. -/
inductive CsvRow where
  | header : CsvRow
  | data (vals : Channels) : CsvRow
deriving DecidableEq

/-- Whether a CSV row is the header row. -/
def CsvRow.isHeader : CsvRow → Bool
  | .header => true
  | .data _ => false

/-- State of one `PlotWidget`: the stored series data, the viewport limits
and the series time origin `t0`. -/
structure PlotWidgetState where
  xdata : List ℚ
  ydata1 : List ℚ
  ydata2 : List ℚ
  xlim : ℚ
  ylim_min : ℚ
  ylim_max : ℚ
  t0 : ℚ
deriving DecidableEq

/-- `PlotWidget.__init__`: empty series, default viewport `[0,2] × [0,100]`,
time origin at construction time `t0`. -/
def PlotWidget.init (t0 : ℚ) : PlotWidgetState :=
  ⟨[], [], [], 2, 0, 100, t0⟩

/-- `PlotWidget.update_plot`: append one point to each of the three data
arrays; the viewport is unchanged. -/
def PlotWidget.update_plot (p : PlotWidgetState) (x y1 y2 : ℚ) : PlotWidgetState :=
  { p with xdata := p.xdata ++ [x], ydata1 := p.ydata1 ++ [y1], ydata2 := p.ydata2 ++ [y2] }

/-- `PlotWidget.clear_plot`: empty the series and reset the time origin to
the current time. -/
def PlotWidget.clear_plot (p : PlotWidgetState) (now : ℚ) : PlotWidgetState :=
  { p with xdata := [], ydata1 := [], ydata2 := [], t0 := now }

/-- `PlotWidget.set_axes(xlim, ylim_max, ylim_min=0)`: change only the
viewport limits, never the stored data. -/
def PlotWidget.set_axes (p : PlotWidgetState) (xlim ylim_max ylim_min : ℚ) : PlotWidgetState :=
  { p with xlim := xlim, ylim_min := ylim_min, ylim_max := ylim_max }

/-- State of the `MainWindow` object, restricted to the fields the
acquisition pipeline reads or writes.  `csv_file` and `csv_writer` model
whether `self.csv_file` / `self.csv_writer` are set (not `None`);
`file_rows` models the rows the program has appended to the CSV file on
disk; `worker_gen` counts the `SerialReader` threads started so far. -/
structure MainWindowState where
  data : Channels
  data_filt : Channels
  last_update : Option ℚ
  plot1 : PlotWidgetState
  plot2 : PlotWidgetState
  csv_file : Bool
  csv_writer : Bool
  file_name : String
  file_rows : List CsvRow
  status_active : Bool
  port : String
  worker_gen : Nat
deriving DecidableEq

/-- `MainWindow.__init__` at construction time `t0`: both value dicts zero,
no `last_update`, plots constructed then adjusted by `init_ui` via
`set_axes(10, 60)` and `set_axes(10, 6)`, no CSV session, default file name
`dados.csv`, default port `COM4`, and one `SerialReader` already started. -/
def MainWindow.init (t0 : ℚ) : MainWindowState :=
  { data := ⟨0, 0, 0, 0⟩
    data_filt := ⟨0, 0, 0, 0⟩
    last_update := none
    plot1 := PlotWidget.set_axes (PlotWidget.init t0) 10 60 0
    plot2 := PlotWidget.set_axes (PlotWidget.init t0) 10 6 0
    csv_file := false
    csv_writer := false
    file_name := "dados.csv"
    file_rows := []
    status_active := false
    port := "COM4"
    worker_gen := 1 }

/-- `MainWindow.start_reading`: a no-op when `self.csv_file` is already
set; otherwise, when the file name is non-empty, open the file for append,
write the header row and activate the status circle; with an empty file
name only clear the writer and the status circle. -/
def MainWindow.start_reading (s : MainWindowState) : MainWindowState :=
  if s.csv_file then s
  else if s.file_name = "" then { s with csv_writer := false, status_active := false }
  else
    { s with csv_file := true, csv_writer := true,
             file_rows := s.file_rows ++ [CsvRow.header], status_active := true }

/-- `MainWindow.stop_reading`: close the file (if open), clear the writer
and deactivate the status circle. -/
def MainWindow.stop_reading (s : MainWindowState) : MainWindowState :=
  { s with csv_file := false, csv_writer := false, status_active := false }

/-- `MainWindow.filtro_passa_baixa`: first-order low-pass filter step
`y[n] = y[n-1] + (dt/tau) * (x[n] - y[n-1])`. -/
def MainWindow.filtro_passa_baixa (novo_valor valor_filtrado_ant dt tau : ℚ) : ℚ :=
  valor_filtrado_ant + dt / tau * (novo_valor - valor_filtrado_ant)

/-- The `dt` computed by `handle_serial_data`: 0.2 s when `last_update` is
`None`, otherwise the elapsed time since the last accepted sample. -/
def MainWindow.dtSince : Option ℚ → ℚ → ℚ
  | none, _ => 1 / 5
  | some t, now => now - t

/-- Net effect of the `for k in self.data` filter loop: every channel
advanced once with the same `dt` and `tau`. -/
def MainWindow.filtAll (r f : Channels) (dt tau : ℚ) : Channels :=
  ⟨MainWindow.filtro_passa_baixa r.T f.T dt tau,
   MainWindow.filtro_passa_baixa r.SP f.SP dt tau,
   MainWindow.filtro_passa_baixa r.Erro f.Erro dt tau,
   MainWindow.filtro_passa_baixa r.Saida f.Saida dt tau⟩

/-- One iteration of the `for k in self.data` loop: the dict keys are
visited in insertion order T, SP, Erro, Saida, and iteration `k` rewrites
exactly the `k`-th channel of `self.data_filt` in place. -/
def MainWindow.filt_key_step (r : Channels) (dt tau : ℚ) (k : Nat) (f : Channels) : Channels :=
  match k with
  | 0 => { f with T := MainWindow.filtro_passa_baixa r.T f.T dt tau }
  | 1 => { f with SP := MainWindow.filtro_passa_baixa r.SP f.SP dt tau }
  | 2 => { f with Erro := MainWindow.filtro_passa_baixa r.Erro f.Erro dt tau }
  | _ => { f with Saida := MainWindow.filtro_passa_baixa r.Saida f.Saida dt tau }

/-- Contents of the shared `self.data_filt` dict after the first `n`
iterations of the filter loop — exactly what `update_displays`, polled from
the timer thread, would read if it ran at that instant. -/
def MainWindow.filt_loop_state (r : Channels) (dt tau : ℚ) (f : Channels) : Nat → Channels
  | 0 => f
  | n + 1 => MainWindow.filt_key_step r dt tau n (MainWindow.filt_loop_state r dt tau f n)

/-- Running the filter loop to completion agrees with `filtAll`. -/
theorem MainWindow.filt_loop_complete (r f : Channels) (dt tau : ℚ) :
    MainWindow.filt_loop_state r dt tau f 4 = MainWindow.filtAll r f dt tau := rfl

/-- State mutations of `handle_serial_data` performed for an accepted
sample before the CSV write is attempted: store the raw values, advance
`last_update`, run the filter loop with `tau = 5.0`, and append one point
to each plot at that plot's own relative time. -/
def MainWindow.handle_core (now : ℚ) (r : Channels) (s : MainWindowState) : MainWindowState :=
  let dt := MainWindow.dtSince s.last_update now
  let filt := MainWindow.filtAll r s.data_filt dt 5
  { s with
    data := r
    data_filt := filt
    last_update := some now
    plot1 := PlotWidget.update_plot s.plot1 ((now - s.plot1.t0) / 60) filt.T filt.SP
    plot2 := PlotWidget.update_plot s.plot2 ((now - s.plot2.t0) / 60) filt.Saida filt.Erro }

/-- `MainWindow.handle_serial_data`: parse the line with `re.match`; on
failure do nothing; on success run the core mutations and, when a CSV
writer is set, append one data row of the filtered values. -/
def MainWindow.handle_serial_data (now : ℚ) (line : String) (s : MainWindowState) : MainWindowState :=
  match parse line with
  | none => s
  | some r =>
    let s1 := MainWindow.handle_core now r s
    if s1.csv_writer then { s1 with file_rows := s1.file_rows ++ [CsvRow.data s1.data_filt] }
    else s1

/-- `handle_serial_data` with a fallible CSV write: `write_ok = false`
models `csv_writer.writerow` raising an exception.  The `Except.error`
payload is the state at the moment the exception escapes — all mutations
performed before the write (raw values, filter state, `last_update`, both
plots) persist, since Python mutates them in place before reaching the
`writerow` call. -/
def MainWindow.handle_serial_dataE (write_ok : Bool) (now : ℚ) (line : String)
    (s : MainWindowState) : Except MainWindowState MainWindowState :=
  match parse line with
  | none => .ok s
  | some r =>
    let s1 := MainWindow.handle_core now r s
    if s1.csv_writer then
      if write_ok then .ok { s1 with file_rows := s1.file_rows ++ [CsvRow.data s1.data_filt] }
      else .error s1
    else .ok s1

/-- `MainWindow.connect_com_port`: stop and join the current reader thread,
switch to the selected port and start a fresh `SerialReader`.  None of the
filter state, `last_update`, plots or CSV session is touched. -/
def MainWindow.connect_com_port (selected : String) (s : MainWindowState) : MainWindowState :=
  { s with port := selected, worker_gen := s.worker_gen + 1 }

/-- `MainWindow.set_axes`: read both (or all three) axis inputs, convert
them with Python's `float` (modelled by the parameter `float_of`, `none`
meaning `ValueError`), and only if every conversion succeeds forward to
`PlotWidget.set_axes`; the surrounding `try/except: pass` turns any
conversion failure into a silent no-op. -/
def MainWindow.set_axes (float_of : String → Option ℚ) (p : PlotWidgetState)
    (x_text y_text : String) (y_ini_text : Option String) : PlotWidgetState :=
  match float_of x_text with
  | none => p
  | some xlim =>
    match float_of y_text with
    | none => p
    | some ylim =>
      match y_ini_text with
      | none => PlotWidget.set_axes p xlim ylim 0
      | some ytxt =>
        match float_of ytxt with
        | none => p
        | some ylim_ini => PlotWidget.set_axes p xlim ylim ylim_ini

/-- State of a `SerialReader` thread: whether `_stop_event` is set, whether
`run()` has returned, and whether the serial connection is still open. -/
structure SerialReaderState where
  stop_event : Bool
  loop_exited : Bool
  ser_open : Bool
deriving DecidableEq

/-- `SerialReader.stop`: set `_stop_event` and return immediately.  The
method neither joins the thread nor closes the connection. -/
def SerialReader.stop (w : SerialReaderState) : SerialReaderState :=
  { w with stop_event := true }

/-- Condition of the `while not self._stop_event.is_set()` read loop. -/
def SerialReader.loop_continues (w : SerialReaderState) : Bool :=
  !w.stop_event

/-- The `run` loop of `SerialReader` driving `handle_serial_data` with a
fallible CSV write per line: each element carries whether the CSV write
would succeed, the arrival time and the line text.  An exception escaping
the callback is caught by the `except` clause of `run`, which terminates
the whole loop — the remaining lines are never processed. -/
def SerialReader.runE : List (Bool × ℚ × String) → MainWindowState → MainWindowState
  | [], s => s
  | q :: rest, s =>
    match MainWindow.handle_serial_dataE q.1 q.2.1 q.2.2 s with
    | .ok s1 => SerialReader.runE rest s1
    | .error s1 => s1

/-- GUI-level events acting on the main-window state. -/
inductive AppEvent where
  | start : AppEvent
  | stop : AppEvent
  | sample (now : ℚ) (line : String) : AppEvent

/-- Effect of one event on the main-window state. -/
def MainWindow.step (s : MainWindowState) : AppEvent → MainWindowState
  | .start => MainWindow.start_reading s
  | .stop => MainWindow.stop_reading s
  | .sample now line => MainWindow.handle_serial_data now line s

/-- Run a list of events left to right. -/
def MainWindow.runEvents (s : MainWindowState) (evs : List AppEvent) : MainWindowState :=
  evs.foldl MainWindow.step s

/-- Serial samples as events: one `sample` event per (time, line) pair. -/
def sampleEvs (samples : List (ℚ × String)) : List AppEvent :=
  samples.map fun q => AppEvent.sample q.1 q.2

/-- The CSV data rows an open recording session appends while the given
samples are handled in order: one row of the current filtered values per
accepted sample, in arrival order; rejected lines contribute nothing. -/
def MainWindow.dataTrace (s : MainWindowState) : List (ℚ × String) → List CsvRow
  | [] => []
  | q :: rest =>
    match parse q.2 with
    | none => MainWindow.dataTrace (MainWindow.handle_serial_data q.1 q.2 s) rest
    | some _ =>
      CsvRow.data (MainWindow.handle_serial_data q.1 q.2 s).data_filt ::
        MainWindow.dataTrace (MainWindow.handle_serial_data q.1 q.2 s) rest

/-- `handle_serial_data` never changes the CSV session state or the chosen
file name. -/
theorem MainWindow.handle_preserves_csv (now : ℚ) (line : String) (s : MainWindowState) :
    (MainWindow.handle_serial_data now line s).csv_file = s.csv_file ∧
    (MainWindow.handle_serial_data now line s).csv_writer = s.csv_writer ∧
    (MainWindow.handle_serial_data now line s).file_name = s.file_name := by
  unfold MainWindow.handle_serial_data
  cases parse line with
  | none => exact ⟨rfl, rfl, rfl⟩
  | some r =>
    simp only [MainWindow.handle_core]
    split <;> exact ⟨rfl, rfl, rfl⟩

/-- While the CSV writer is set, handling samples appends exactly the data
trace to the file and leaves the session open. -/
theorem MainWindow.runEvents_samples_open (samples : List (ℚ × String)) :
    ∀ s : MainWindowState, s.csv_writer = true →
      (MainWindow.runEvents s (sampleEvs samples)).file_rows
          = s.file_rows ++ MainWindow.dataTrace s samples ∧
      (MainWindow.runEvents s (sampleEvs samples)).csv_file = s.csv_file ∧
      (MainWindow.runEvents s (sampleEvs samples)).csv_writer = true ∧
      (MainWindow.runEvents s (sampleEvs samples)).file_name = s.file_name := by
  induction samples with
  | nil =>
    intro s hw
    exact ⟨by simp [sampleEvs, MainWindow.runEvents, MainWindow.dataTrace], rfl, hw, rfl⟩
  | cons q rest ih =>
    intro s hw
    have hpres := MainWindow.handle_preserves_csv q.1 q.2 s
    have hw1 : (MainWindow.handle_serial_data q.1 q.2 s).csv_writer = true :=
      hpres.2.1.trans hw
    have hrun : MainWindow.runEvents s (sampleEvs (q :: rest))
        = MainWindow.runEvents (MainWindow.handle_serial_data q.1 q.2 s) (sampleEvs rest) := rfl
    obtain ⟨ihr, ihf, ihw, ihn⟩ := ih (MainWindow.handle_serial_data q.1 q.2 s) hw1
    refine ⟨?_, ?_, ?_, ?_⟩
    · rw [hrun, ihr]
      cases hparse : parse q.2 with
      | none =>
        have hs : MainWindow.handle_serial_data q.1 q.2 s = s := by
          simp [MainWindow.handle_serial_data, hparse]
        rw [hs]
        simp [MainWindow.dataTrace, hparse, hs]
      | some r =>
        have hrows : (MainWindow.handle_serial_data q.1 q.2 s).file_rows
            = s.file_rows ++ [CsvRow.data (MainWindow.handle_serial_data q.1 q.2 s).data_filt] := by
          simp only [MainWindow.handle_serial_data, hparse]
          simp [MainWindow.handle_core, hw]
        rw [hrows]
        simp [MainWindow.dataTrace, hparse]
    · rw [hrun, ihf, hpres.1]
    · rw [hrun]; exact ihw
    · rw [hrun, ihn, hpres.2.2]

/-- The data trace contains no header row. -/
theorem MainWindow.dataTrace_no_header (samples : List (ℚ × String)) :
    ∀ (s : MainWindowState), ∀ row ∈ MainWindow.dataTrace s samples, row.isHeader = false := by
  induction samples with
  | nil => intro s row hrow; simp [MainWindow.dataTrace] at hrow
  | cons q rest ih =>
    intro s row hrow
    unfold MainWindow.dataTrace at hrow
    cases hparse : parse q.2 with
    | none =>
      rw [hparse] at hrow
      exact ih _ row hrow
    | some r =>
      rw [hparse] at hrow
      rcases List.mem_cons.mp hrow with h | h
      · rw [h]; rfl
      · exact ih _ row h

/-- A literal matcher consumes exactly its own text. -/
theorem matchLit_self (lit rest : List Char) : matchLit lit (lit ++ rest) = some rest := by
  induction lit with
  | nil => rfl
  | cons c cs ih => simp [matchLit, ih]

/-- The greedy digit scanner consumes a digit run exactly up to the first
non-digit. -/
theorem takeDigits_append (ds rest : List Char) (hds : ∀ c ∈ ds, c.isDigit = true)
    (hr : noDigitHead rest = true) : takeDigits (ds ++ rest) = (ds, rest) := by
  induction ds with
  | nil =>
    cases rest with
    | nil => rfl
    | cons c cs =>
      have hc : c.isDigit = false := by simpa [noDigitHead] using hr
      simp [takeDigits, hc]
  | cons d ds ih =>
    have hd : d.isDigit = true := hds d (by simp)
    have hds2 : ∀ c ∈ ds, c.isDigit = true := fun c hc => hds c (by simp [hc])
    simp [takeDigits, hd, ih hds2]

/-- A numeric literal of the documented schema `<float>`: optional sign,
integer digits, a dot, fractional digits. -/
structure NumLit where
  neg : Bool
  int : List Char
  frac : List Char

/-- Well-formedness of a schema numeric literal: both digit groups are
non-empty and all their characters are digits. -/
def NumLit.wf (n : NumLit) : Prop :=
  n.int ≠ [] ∧ n.frac ≠ [] ∧ (∀ c ∈ n.int, c.isDigit = true) ∧ (∀ c ∈ n.frac, c.isDigit = true)

instance (n : NumLit) : Decidable n.wf := by
  unfold NumLit.wf
  infer_instance

/-- The text of a schema numeric literal. -/
def NumLit.render (n : NumLit) : List Char :=
  (if n.neg then ['-'] else []) ++ n.int ++ ('.' :: n.frac)

/-- The value of a schema numeric literal. -/
def NumLit.val (n : NumLit) : ℚ :=
  if n.neg then -(uval n.int n.frac) else uval n.int n.frac

/-- The unsigned float matcher accepts a rendered unsigned literal followed
by anything that does not start with a digit, and consumes exactly the
literal. -/
theorem matchUFloat_render (n : NumLit) (rest : List Char) (hn : n.wf) (hneg : n.neg = false)
    (hr : noDigitHead rest = true) :
    matchUFloat (n.render ++ rest) = some (n.val, rest) := by
  obtain ⟨hi, hf, hdi, hdf⟩ := hn
  have hrender : n.render ++ rest = n.int ++ ('.' :: (n.frac ++ rest)) := by
    simp [NumLit.render, hneg, List.append_assoc]
  have h1 : takeDigits (n.int ++ ('.' :: (n.frac ++ rest))) = (n.int, '.' :: (n.frac ++ rest)) :=
    takeDigits_append _ _ hdi rfl
  have h2 : takeDigits (n.frac ++ rest) = (n.frac, rest) := takeDigits_append _ _ hdf hr
  rw [hrender]
  simp [matchUFloat, h1, h2, hi, hf, NumLit.val, hneg]

/-- The signed float matcher accepts any rendered well-formed literal
followed by anything that does not start with a digit. -/
theorem matchSFloat_render (n : NumLit) (rest : List Char) (hn : n.wf)
    (hr : noDigitHead rest = true) :
    matchSFloat (n.render ++ rest) = some (n.val, rest) := by
  obtain ⟨hi, hf, hdi, hdf⟩ := hn
  cases hneg : n.neg with
  | true =>
    have hrender : n.render ++ rest = '-' :: ((NumLit.mk false n.int n.frac).render ++ rest) := by
      simp [NumLit.render, hneg]
    rw [hrender]
    have hu := matchUFloat_render (NumLit.mk false n.int n.frac) rest ⟨hi, hf, hdi, hdf⟩ rfl hr
    simp [matchSFloat, hu, NumLit.val, hneg]
  | false =>
    have hrender : n.render ++ rest = n.int ++ ('.' :: n.frac ++ rest) := by
      simp [NumLit.render, hneg]
    have hhead : (n.render ++ rest).head? ≠ some '-' := by
      rw [hrender]
      cases hint : n.int with
      | nil => exact absurd hint hi
      | cons c cs =>
        have hc : c.isDigit = true := hdi c (by rw [hint]; exact List.mem_cons_self c cs)
        simp only [List.cons_append, List.head?_cons]
        intro hEq
        have hcc : c = '-' := by injection hEq
        rw [hcc] at hc
        exact absurd hc (by decide)
    rw [matchSFloat, if_neg hhead]
    exact matchUFloat_render n rest ⟨hi, hf, hdi, hdf⟩ hneg hr

/-- The SP literal starts with a blank, so it cannot extend a digit run. -/
theorem noDigitHead_litSP (rest : List Char) : noDigitHead (litSP ++ rest) = true := rfl

/-- The Erro literal starts with a blank. -/
theorem noDigitHead_litErro (rest : List Char) : noDigitHead (litErro ++ rest) = true := rfl

/-- The Saida literal starts with a blank. -/
theorem noDigitHead_litSaida (rest : List Char) : noDigitHead (litSaida ++ rest) = true := rfl

/-- Full soundness of the schema matcher on rendered lines: a line that
begins with the four rendered literals in schema order matches, captures
exactly the four literal values, and leaves precisely the trailing text
unconsumed. -/
theorem reMatchRem_render (t sp e sa : NumLit) (suffix : List Char)
    (ht : t.wf) (hsp : sp.wf) (he : e.wf) (hsa : sa.wf)
    (htn : t.neg = false) (hspn : sp.neg = false)
    (hsuf : noDigitHead suffix = true) :
    reMatchRem (litT ++ t.render ++ litSP ++ sp.render ++ litErro ++ e.render
        ++ litSaida ++ sa.render ++ suffix)
      = some (⟨t.val, sp.val, e.val, sa.val⟩, suffix) := by
  have hassoc : litT ++ t.render ++ litSP ++ sp.render ++ litErro ++ e.render
        ++ litSaida ++ sa.render ++ suffix
      = litT ++ (t.render ++ (litSP ++ (sp.render ++ (litErro ++ (e.render
        ++ (litSaida ++ (sa.render ++ suffix))))))) := by
    simp [List.append_assoc]
  rw [hassoc, reMatchRem, matchLit_self]
  rw [Option.some_bind]
  rw [matchUFloat_render t _ ht htn (noDigitHead_litSP _)]
  rw [Option.some_bind]
  rw [matchLit_self, Option.some_bind]
  rw [matchUFloat_render sp _ hsp hspn (noDigitHead_litErro _)]
  rw [Option.some_bind]
  rw [matchLit_self, Option.some_bind]
  rw [matchSFloat_render e _ he (noDigitHead_litSaida _)]
  rw [Option.some_bind]
  rw [matchLit_self, Option.some_bind]
  rw [matchSFloat_render sa _ hsa hsuf]
  rfl

/-- A line of the documented wire schema
`T(°C)=<float> SP(°C)=<float> Erro(V)=<float> Saida(V)=<float>`, built from
four numeric literals, followed by arbitrary trailing text. -/
def schemaLine (t sp e sa : NumLit) (suffix : List Char) : String :=
  ⟨litT ++ t.render ++ litSP ++ sp.render ++ litErro ++ e.render
    ++ litSaida ++ sa.render ++ suffix⟩

/-- C1 (amended): `parse` matches the schema as a prefix of the line, as
`re.match` does.  For well-formed literals (T and SP unsigned, Erro and
Saida optionally negative) and any trailing text not starting with a digit,
`parse` succeeds and returns exactly the four literal values — even when
the trailing text is non-empty — and the line matches the schema exactly
if and only if the trailing text is empty.  Any line not starting with the
schema yields a parse failure and no state change. -/
theorem C1_parse_prefix (t sp e sa : NumLit) (suffix : List Char)
    (ht : t.wf) (hsp : sp.wf) (he : e.wf) (hsa : sa.wf)
    (htn : t.neg = false) (hspn : sp.neg = false)
    (hsuf : noDigitHead suffix = true) :
    parse (schemaLine t sp e sa suffix) = some ⟨t.val, sp.val, e.val, sa.val⟩ ∧
    matchesExactly (schemaLine t sp e sa suffix) = suffix.isEmpty := by
  have h := reMatchRem_render t sp e sa suffix ht hsp he hsa htn hspn hsuf
  have hd : (schemaLine t sp e sa suffix).data
      = litT ++ t.render ++ litSP ++ sp.render ++ litErro ++ e.render
        ++ litSaida ++ sa.render ++ suffix := rfl
  refine ⟨?_, ?_⟩
  · unfold parse
    rw [hd, h]
    rfl
  · unfold matchesExactly
    rw [hd, h]
    cases suffix <;> rfl

/-- C1 witness: the schema line `T(°C)=4.25 SP(°C)=8.5 Erro(V)=-0.5
Saida(V)=1.5` followed by the trailing text `" X"` parses to the four
literal values although it does not match the schema exactly. -/
theorem C1_parse_prefix_witness :
    ((NumLit.mk false ['4'] ['2', '5']).wf ∧ (NumLit.mk false ['8'] ['5']).wf ∧
     (NumLit.mk true ['0'] ['5']).wf ∧ (NumLit.mk false ['1'] ['5']).wf ∧
     noDigitHead " X".data = true) ∧
    (parse (schemaLine ⟨false, ['4'], ['2', '5']⟩ ⟨false, ['8'], ['5']⟩
          ⟨true, ['0'], ['5']⟩ ⟨false, ['1'], ['5']⟩ " X".data)
        = some ⟨(NumLit.mk false ['4'] ['2', '5']).val, (NumLit.mk false ['8'] ['5']).val,
                (NumLit.mk true ['0'] ['5']).val, (NumLit.mk false ['1'] ['5']).val⟩ ∧
     matchesExactly (schemaLine ⟨false, ['4'], ['2', '5']⟩ ⟨false, ['8'], ['5']⟩
          ⟨true, ['0'], ['5']⟩ ⟨false, ['1'], ['5']⟩ " X".data)
        = (" X".data).isEmpty) :=
  ⟨⟨by decide, by decide, by decide, by decide, rfl⟩,
   C1_parse_prefix ⟨false, ['4'], ['2', '5']⟩ ⟨false, ['8'], ['5']⟩
     ⟨true, ['0'], ['5']⟩ ⟨false, ['1'], ['5']⟩ " X".data
     (by decide) (by decide) (by decide) (by decide) rfl rfl rfl⟩

/-- C1 counterexample: the claim says extra characters anywhere in the line
yield a parse failure, but a line carrying trailing garbage after a
schema-matching prefix parses successfully, because `re.match` does not
anchor at the end of the string. -/
theorem C1_counterexample :
    (parse "T(°C)=1.5 SP(°C)=2.5 Erro(V)=-0.5 Saida(V)=3.5 EXTRA").isSome = true ∧
    parse "T(°C)=1.5 SP(°C)=2.5 Erro(V)=-0.5 Saida(V)=3.5 EXTRA"
      = some ⟨uval ['1'] ['5'], uval ['2'] ['5'], -(uval ['0'] ['5']), uval ['3'] ['5']⟩ ∧
    matchesExactly "T(°C)=1.5 SP(°C)=2.5 Erro(V)=-0.5 Saida(V)=3.5 EXTRA" = false :=
  ⟨by decide, rfl, by decide⟩

/-- C2: for every accepted sample, every channel advances by
`prev + (dt/tau) * (raw - prev)` with `tau = 5.0`, the filter state starts
at zero for all four channels, and one accepted sample advances all four
channels in one update with the same `dt`. -/
theorem C2_filter_advance (t0 now : ℚ) (line : String) (r : Channels) (s : MainWindowState)
    (hp : parse line = some r) :
    (MainWindow.init t0).data_filt = ⟨0, 0, 0, 0⟩ ∧
    (MainWindow.handle_serial_data now line s).data_filt =
      ⟨MainWindow.filtro_passa_baixa r.T s.data_filt.T (MainWindow.dtSince s.last_update now) 5,
       MainWindow.filtro_passa_baixa r.SP s.data_filt.SP (MainWindow.dtSince s.last_update now) 5,
       MainWindow.filtro_passa_baixa r.Erro s.data_filt.Erro (MainWindow.dtSince s.last_update now) 5,
       MainWindow.filtro_passa_baixa r.Saida s.data_filt.Saida (MainWindow.dtSince s.last_update now) 5⟩ := by
  refine ⟨rfl, ?_⟩
  simp only [MainWindow.handle_serial_data, hp]
  split <;> rfl

/-- C2 witness: the claim instantiated at the sample line of the source
comment, handled at time 1 from the freshly constructed window state. -/
theorem C2_filter_advance_witness :
    parse goodLine = some goodVal ∧
    ((MainWindow.init 0).data_filt = ⟨0, 0, 0, 0⟩ ∧
     (MainWindow.handle_serial_data 1 goodLine (MainWindow.init 0)).data_filt =
       ⟨MainWindow.filtro_passa_baixa goodVal.T (MainWindow.init 0).data_filt.T
          (MainWindow.dtSince (MainWindow.init 0).last_update 1) 5,
        MainWindow.filtro_passa_baixa goodVal.SP (MainWindow.init 0).data_filt.SP
          (MainWindow.dtSince (MainWindow.init 0).last_update 1) 5,
        MainWindow.filtro_passa_baixa goodVal.Erro (MainWindow.init 0).data_filt.Erro
          (MainWindow.dtSince (MainWindow.init 0).last_update 1) 5,
        MainWindow.filtro_passa_baixa goodVal.Saida (MainWindow.init 0).data_filt.Saida
          (MainWindow.dtSince (MainWindow.init 0).last_update 1) 5⟩) :=
  ⟨rfl, C2_filter_advance 0 1 goodLine goodVal (MainWindow.init 0) rfl⟩

/-- C7: `start_reading` is idempotent while a session is open — a second
call without an intervening stop is a no-op, so exactly one header row is
written, and the state after the second call is the open state produced by
the first. -/
theorem C7_start_idempotent (s : MainWindowState) (h1 : s.csv_file = false)
    (h2 : s.file_name ≠ "") :
    MainWindow.start_reading (MainWindow.start_reading s) = MainWindow.start_reading s ∧
    (MainWindow.start_reading s).file_rows = s.file_rows ++ [CsvRow.header] ∧
    (MainWindow.start_reading s).csv_file = true ∧
    (MainWindow.start_reading s).csv_writer = true := by
  have hs : MainWindow.start_reading s
      = { s with csv_file := true, csv_writer := true,
                 file_rows := s.file_rows ++ [CsvRow.header], status_active := true } := by
    simp [MainWindow.start_reading, h1, h2]
  refine ⟨?_, by rw [hs], by rw [hs], by rw [hs]⟩
  rw [hs]
  simp [MainWindow.start_reading]

/-- C7 witness: double start from the freshly constructed window state. -/
theorem C7_start_idempotent_witness :
    ((MainWindow.init 0).csv_file = false ∧ (MainWindow.init 0).file_name ≠ "") ∧
    (MainWindow.start_reading (MainWindow.start_reading (MainWindow.init 0))
        = MainWindow.start_reading (MainWindow.init 0) ∧
     (MainWindow.start_reading (MainWindow.init 0)).file_rows
        = (MainWindow.init 0).file_rows ++ [CsvRow.header] ∧
     (MainWindow.start_reading (MainWindow.init 0)).csv_file = true ∧
     (MainWindow.start_reading (MainWindow.init 0)).csv_writer = true) :=
  ⟨⟨rfl, by decide⟩, C7_start_idempotent (MainWindow.init 0) rfl (by decide)⟩

/-- C8 counterexample: the claim says `stop()` blocks until the read loop
has exited and the connection is released, but `SerialReader.stop` only
sets the stop event and returns — on a running worker the loop has not
exited and the connection is still open when `stop` returns (the join is
performed separately by the callers). -/
theorem C8_counterexample :
    (SerialReader.stop ⟨false, false, true⟩).loop_exited = false ∧
    (SerialReader.stop ⟨false, false, true⟩).ser_open = true :=
  ⟨rfl, rfl⟩

/-- C8 (amended): `stop` only sets the stop event and returns immediately;
it is idempotent and safe in every worker state (never started, running,
already stopped), it makes the read-loop condition false so the loop exits
cooperatively after its current bounded read, and it touches neither the
loop-exited flag nor the connection. -/
theorem C8_stop_nonblocking (w : SerialReaderState) :
    SerialReader.stop w = { w with stop_event := true } ∧
    SerialReader.stop (SerialReader.stop w) = SerialReader.stop w ∧
    SerialReader.loop_continues (SerialReader.stop w) = false ∧
    (SerialReader.stop w).loop_exited = w.loop_exited ∧
    (SerialReader.stop w).ser_open = w.ser_open :=
  ⟨rfl, rfl, rfl, rfl, rfl⟩

/-- C9: a line that fails to parse leaves the whole window state — filter
state, last-update timestamp, snapshot, both plots and the CSV file —
completely unchanged. -/
theorem C9_rejected_line_no_mutation (now : ℚ) (line : String) (s : MainWindowState)
    (h : parse line = none) :
    MainWindow.handle_serial_data now line s = s := by
  simp [MainWindow.handle_serial_data, h]

/-- C9 witness: the line `"garbage"` handled at time 7 from the fresh
window state. -/
theorem C9_rejected_line_no_mutation_witness :
    parse "garbage" = none ∧
    MainWindow.handle_serial_data 7 "garbage" (MainWindow.init 0) = MainWindow.init 0 :=
  ⟨rfl, C9_rejected_line_no_mutation 7 "garbage" (MainWindow.init 0) rfl⟩

/-- C10: when at least one of the axis-limit inputs does not convert to a
float, `set_axes` silently leaves the plot — viewport and stored series
data — completely unchanged and raises nothing (the `try/except: pass`
swallows the conversion error before `PlotWidget.set_axes` is reached). -/
theorem C10_axes_bad_input_noop (float_of : String → Option ℚ) (p : PlotWidgetState)
    (x_text y_text : String) (y_ini_text : Option String)
    (h : float_of x_text = none ∨ float_of y_text = none) :
    MainWindow.set_axes float_of p x_text y_text y_ini_text = p := by
  rcases h with h | h
  · simp [MainWindow.set_axes, h]
  · cases hx : float_of x_text with
    | none => simp [MainWindow.set_axes, hx]
    | some v => simp [MainWindow.set_axes, hx, h]

/-- C10 witness: a conversion function rejecting every string leaves the
fresh plot unchanged. -/
theorem C10_axes_bad_input_noop_witness :
    ((fun _ : String => (none : Option ℚ)) "abc" = none ∨
     (fun _ : String => (none : Option ℚ)) "60" = none) ∧
    MainWindow.set_axes (fun _ : String => (none : Option ℚ)) (PlotWidget.init 0) "abc" "60" none
      = PlotWidget.init 0 :=
  ⟨Or.inl rfl, C10_axes_bad_input_noop (fun _ => none) (PlotWidget.init 0) "abc" "60" none (Or.inl rfl)⟩

/-- C4 counterexample: the snapshot dict `data_filt` is shared between the
acquisition thread and the 200 ms display timer with no lock; the filter
loop rewrites it one channel at a time, so a poll landing after two of the
four channel writes observes a sample that is neither the previous
complete sample nor the new one. -/
theorem C4_counterexample :
    MainWindow.filt_loop_state ⟨5, 5, 5, 5⟩ 1 5 ⟨0, 0, 0, 0⟩ 2 ≠ (⟨0, 0, 0, 0⟩ : Channels) ∧
    MainWindow.filt_loop_state ⟨5, 5, 5, 5⟩ 1 5 ⟨0, 0, 0, 0⟩ 2
      ≠ MainWindow.filt_loop_state ⟨5, 5, 5, 5⟩ 1 5 ⟨0, 0, 0, 0⟩ 4 := by
  constructor
  · intro h
    have hT := congrArg Channels.T h
    simp only [MainWindow.filt_loop_state, MainWindow.filt_key_step,
      MainWindow.filtro_passa_baixa] at hT
    norm_num at hT
  · intro h
    have hS := congrArg Channels.Saida h
    simp only [MainWindow.filt_loop_state, MainWindow.filt_key_step,
      MainWindow.filtro_passa_baixa] at hS
    norm_num at hS

/-- C4 (amended): the latest-values snapshot is a plain dict written
channel by channel with no mutual exclusion, so whenever an accepted
sample actually changes the channel values, the intermediate dict contents
observed between the per-channel writes differ from both the previous and
the new complete sample — a torn read, which the display poller can
observe because nothing orders it with the writer. -/
theorem C4_torn_read (r f : Channels) (dt tau : ℚ)
    (hdt : dt ≠ 0) (htau : tau ≠ 0) (hT : r.T ≠ f.T) (hS : r.Saida ≠ f.Saida) :
    MainWindow.filt_loop_state r dt tau f 2 ≠ f ∧
    MainWindow.filt_loop_state r dt tau f 2 ≠ MainWindow.filtAll r f dt tau := by
  constructor
  · intro h
    have hTc := congrArg Channels.T h
    simp only [MainWindow.filt_loop_state, MainWindow.filt_key_step,
      MainWindow.filtro_passa_baixa] at hTc
    exact mul_ne_zero (div_ne_zero hdt htau) (sub_ne_zero.mpr hT) (add_right_eq_self.mp hTc)
  · intro h
    have hSc := congrArg Channels.Saida h
    simp only [MainWindow.filt_loop_state, MainWindow.filt_key_step,
      MainWindow.filtAll, MainWindow.filtro_passa_baixa] at hSc
    exact mul_ne_zero (div_ne_zero hdt htau) (sub_ne_zero.mpr hS) (self_eq_add_right.mp hSc)

/-- C4 witness: raw sample 5 on every channel against a zero filter state
with `dt = 1`, `tau = 5`. -/
theorem C4_torn_read_witness :
    ((1 : ℚ) ≠ 0 ∧ (5 : ℚ) ≠ 0 ∧
     (⟨5, 5, 5, 5⟩ : Channels).T ≠ (⟨0, 0, 0, 0⟩ : Channels).T ∧
     (⟨5, 5, 5, 5⟩ : Channels).Saida ≠ (⟨0, 0, 0, 0⟩ : Channels).Saida) ∧
    (MainWindow.filt_loop_state ⟨5, 5, 5, 5⟩ 1 5 ⟨0, 0, 0, 0⟩ 2 ≠ (⟨0, 0, 0, 0⟩ : Channels) ∧
     MainWindow.filt_loop_state ⟨5, 5, 5, 5⟩ 1 5 ⟨0, 0, 0, 0⟩ 2
       ≠ MainWindow.filtAll ⟨5, 5, 5, 5⟩ ⟨0, 0, 0, 0⟩ 1 5) :=
  ⟨⟨one_ne_zero, by simp, by simp, by simp⟩,
   C4_torn_read ⟨5, 5, 5, 5⟩ ⟨0, 0, 0, 0⟩ 1 5 one_ne_zero (by simp) (by simp) (by simp)⟩

/-- C5 counterexample: after one accepted sample at time 10 and a
reconnect to a new port, the first accepted sample of the fresh worker at
time 30 is filtered with `dt = 30 - 10`, not with the claimed 0.2 s —
`connect_com_port` restarts the reader thread but never resets
`last_update`. -/
theorem C5_counterexample :
    (MainWindow.connect_com_port "COM7"
        (MainWindow.handle_serial_data 10 lineFive (MainWindow.init 0))).last_update = some 10 ∧
    MainWindow.dtSince (some 10) 30 = 20 ∧
    (20 : ℚ) ≠ 1 / 5 ∧
    (MainWindow.handle_serial_data 30 lineFive
        (MainWindow.connect_com_port "COM7"
          (MainWindow.handle_serial_data 10 lineFive (MainWindow.init 0)))).data_filt
      = MainWindow.filtAll valFive
          (MainWindow.handle_serial_data 10 lineFive (MainWindow.init 0)).data_filt (30 - 10) 5 ∧
    (MainWindow.handle_serial_data 30 lineFive
        (MainWindow.connect_com_port "COM7"
          (MainWindow.handle_serial_data 10 lineFive (MainWindow.init 0)))).data_filt.T
      ≠ MainWindow.filtro_passa_baixa valFive.T
          (MainWindow.handle_serial_data 10 lineFive (MainWindow.init 0)).data_filt.T (1 / 5) 5 := by
  have h5 : uval ['5'] ['0'] = 5 := by
    simp [uval, show digitsVal ['5'] = 5 from rfl, show digitsVal ['0'] = 0 from rfl]
  have e1 : (MainWindow.handle_serial_data 10 lineFive (MainWindow.init 0)).data_filt.T
      = MainWindow.filtro_passa_baixa (uval ['5'] ['0']) 0 (1 / 5) 5 := rfl
  have e1v : (MainWindow.handle_serial_data 10 lineFive (MainWindow.init 0)).data_filt.T
      = 1 / 5 := by
    rw [e1, h5]
    norm_num [MainWindow.filtro_passa_baixa]
  refine ⟨rfl, by norm_num [MainWindow.dtSince], by norm_num, rfl, ?_⟩
  have e2 : (MainWindow.handle_serial_data 30 lineFive
        (MainWindow.connect_com_port "COM7"
          (MainWindow.handle_serial_data 10 lineFive (MainWindow.init 0)))).data_filt.T
      = MainWindow.filtro_passa_baixa (uval ['5'] ['0'])
          ((MainWindow.handle_serial_data 10 lineFive (MainWindow.init 0)).data_filt.T)
          (30 - 10) 5 := rfl
  rw [e2, e1v, h5]
  norm_num [MainWindow.filtro_passa_baixa, valFive, h5]

/-- C5 (amended): `dt` is 0.2 s exactly when `last_update` is `None`,
which holds only before the very first accepted sample after the window is
constructed; otherwise `dt` is the time elapsed since the previous
accepted sample.  Reconnecting to a new port restarts the reader thread
but leaves `last_update` untouched, so the first sample of the new worker
uses the elapsed time since the last sample accepted before the
reconnect. -/
theorem C5_dt_behaviour (t0 : ℚ) (selected : String) (now t : ℚ) (line : String)
    (r : Channels) (s : MainWindowState) (hp : parse line = some r) :
    MainWindow.dtSince none now = 1 / 5 ∧
    MainWindow.dtSince (some t) now = now - t ∧
    (MainWindow.init t0).last_update = none ∧
    (MainWindow.connect_com_port selected s).last_update = s.last_update ∧
    (MainWindow.connect_com_port selected s).worker_gen = s.worker_gen + 1 ∧
    (MainWindow.handle_serial_data now line s).last_update = some now ∧
    (MainWindow.handle_serial_data now line s).data_filt
      = MainWindow.filtAll r s.data_filt (MainWindow.dtSince s.last_update now) 5 := by
  refine ⟨rfl, rfl, rfl, rfl, rfl, ?_, ?_⟩
  · simp only [MainWindow.handle_serial_data, hp]
    split <;> rfl
  · simp only [MainWindow.handle_serial_data, hp]
    split <;> rfl

/-- C5 witness: the amended claim at the sample line of the source comment
handled at time 2 from the fresh window state, with a reconnect to COM7. -/
theorem C5_dt_behaviour_witness :
    parse goodLine = some goodVal ∧
    (MainWindow.dtSince none 2 = 1 / 5 ∧
     MainWindow.dtSince (some 1) 2 = 2 - 1 ∧
     (MainWindow.init 0).last_update = none ∧
     (MainWindow.connect_com_port "COM7" (MainWindow.init 0)).last_update
        = (MainWindow.init 0).last_update ∧
     (MainWindow.connect_com_port "COM7" (MainWindow.init 0)).worker_gen
        = (MainWindow.init 0).worker_gen + 1 ∧
     (MainWindow.handle_serial_data 2 goodLine (MainWindow.init 0)).last_update = some 2 ∧
     (MainWindow.handle_serial_data 2 goodLine (MainWindow.init 0)).data_filt
        = MainWindow.filtAll goodVal (MainWindow.init 0).data_filt
            (MainWindow.dtSince (MainWindow.init 0).last_update 2) 5) :=
  ⟨rfl, C5_dt_behaviour 0 "COM7" 2 1 goodLine goodVal (MainWindow.init 0) rfl⟩

/-- C3 counterexample: with an open recording session, a failing CSV write
on the first sample does not move the session to Closed (`csv_file` is
still set afterwards) and kills the reader loop, so the second sample
never reaches the plots — the plot series still holds a single point. -/
theorem C3_counterexample :
    (SerialReader.runE [(false, 1, lineFive), (true, 2, lineFive)]
        (MainWindow.start_reading (MainWindow.init 0))).csv_file = true ∧
    (SerialReader.runE [(false, 1, lineFive), (true, 2, lineFive)]
        (MainWindow.start_reading (MainWindow.init 0))).plot1.xdata.length = 1 :=
  ⟨rfl, rfl⟩

/-- C3 (amended): a CSV write failure raises out of `handle_serial_data`
after the snapshot and both plots were already updated for that sample (so
this sample is not lost to the other consumers); no data row is appended;
the session is NOT moved to Closed — `csv_file` and `csv_writer` keep
their values; and the exception terminates the reader loop, so no later
line is processed at all until a new worker is started. -/
theorem C3_csv_failure_behaviour (now : ℚ) (line : String) (r : Channels)
    (s : MainWindowState) (hp : parse line = some r) (hw : s.csv_writer = true) :
    MainWindow.handle_serial_dataE false now line s
        = .error (MainWindow.handle_core now r s) ∧
    (MainWindow.handle_core now r s).file_rows = s.file_rows ∧
    (MainWindow.handle_core now r s).csv_file = s.csv_file ∧
    (MainWindow.handle_core now r s).csv_writer = true ∧
    (MainWindow.handle_core now r s).plot1.xdata.length = s.plot1.xdata.length + 1 ∧
    (MainWindow.handle_core now r s).plot2.xdata.length = s.plot2.xdata.length + 1 ∧
    (MainWindow.handle_core now r s).data_filt
      = MainWindow.filtAll r s.data_filt (MainWindow.dtSince s.last_update now) 5 ∧
    ∀ rest : List (Bool × ℚ × String),
      SerialReader.runE ((false, now, line) :: rest) s = MainWindow.handle_core now r s := by
  have hcw : (MainWindow.handle_core now r s).csv_writer = true := hw
  have herr : MainWindow.handle_serial_dataE false now line s
      = .error (MainWindow.handle_core now r s) := by
    simp only [MainWindow.handle_serial_dataE, hp]
    simp [hcw]
  refine ⟨herr, rfl, rfl, hcw, ?_, ?_, rfl, ?_⟩
  · simp [MainWindow.handle_core, PlotWidget.update_plot]
  · simp [MainWindow.handle_core, PlotWidget.update_plot]
  · intro rest
    simp [SerialReader.runE, herr]

/-- C3 witness: first sample handled with a failing write from the state
right after `start_reading` on the fresh window. -/
theorem C3_csv_failure_behaviour_witness :
    (parse lineFive = some valFive ∧
     (MainWindow.start_reading (MainWindow.init 0)).csv_writer = true) ∧
    (MainWindow.handle_serial_dataE false 1 lineFive (MainWindow.start_reading (MainWindow.init 0))
        = .error (MainWindow.handle_core 1 valFive (MainWindow.start_reading (MainWindow.init 0))) ∧
     (MainWindow.handle_core 1 valFive (MainWindow.start_reading (MainWindow.init 0))).file_rows
        = (MainWindow.start_reading (MainWindow.init 0)).file_rows ∧
     (MainWindow.handle_core 1 valFive (MainWindow.start_reading (MainWindow.init 0))).csv_file
        = (MainWindow.start_reading (MainWindow.init 0)).csv_file ∧
     (MainWindow.handle_core 1 valFive (MainWindow.start_reading (MainWindow.init 0))).csv_writer
        = true ∧
     (MainWindow.handle_core 1 valFive (MainWindow.start_reading (MainWindow.init 0))).plot1.xdata.length
        = (MainWindow.start_reading (MainWindow.init 0)).plot1.xdata.length + 1 ∧
     (MainWindow.handle_core 1 valFive (MainWindow.start_reading (MainWindow.init 0))).plot2.xdata.length
        = (MainWindow.start_reading (MainWindow.init 0)).plot2.xdata.length + 1 ∧
     (MainWindow.handle_core 1 valFive (MainWindow.start_reading (MainWindow.init 0))).data_filt
        = MainWindow.filtAll valFive (MainWindow.start_reading (MainWindow.init 0)).data_filt
            (MainWindow.dtSince (MainWindow.start_reading (MainWindow.init 0)).last_update 1) 5 ∧
     ∀ rest : List (Bool × ℚ × String),
       SerialReader.runE ((false, 1, lineFive) :: rest) (MainWindow.start_reading (MainWindow.init 0))
          = MainWindow.handle_core 1 valFive (MainWindow.start_reading (MainWindow.init 0))) :=
  ⟨⟨rfl, rfl⟩,
   C3_csv_failure_behaviour 1 lineFive valFive (MainWindow.start_reading (MainWindow.init 0)) rfl rfl⟩

/-- When every sample line parses, the data trace has one row per sample. -/
theorem MainWindow.dataTrace_length (samples : List (ℚ × String)) :
    ∀ s : MainWindowState, (∀ q ∈ samples, (parse q.2).isSome = true) →
      (MainWindow.dataTrace s samples).length = samples.length := by
  induction samples with
  | nil => intro s _; rfl
  | cons q rest ih =>
    intro s h
    have hq : (parse q.2).isSome = true := h q (by simp)
    obtain ⟨r, hr⟩ := Option.isSome_iff_exists.mp hq
    have hrest : ∀ p ∈ rest, (parse p.2).isSome = true := fun p hp => h p (by simp [hp])
    unfold MainWindow.dataTrace
    rw [hr]
    simp [ih _ hrest]

/-- Event sequence of two back-to-back recording sessions: start, the
first batch of samples, stop, start, the second batch, stop. -/
def twoSessionEvents (xs ys : List (ℚ × String)) : List AppEvent :=
  AppEvent.start :: (sampleEvs xs ++ AppEvent.stop :: AppEvent.start ::
    (sampleEvs ys ++ [AppEvent.stop]))

/-- The state at which the second recording session opens: first session
started and run over the first batch, stopped, then started again. -/
def secondSessionStart (s0 : MainWindowState) (xs : List (ℚ × String)) : MainWindowState :=
  MainWindow.start_reading (MainWindow.stop_reading
    (MainWindow.runEvents (MainWindow.start_reading s0) (sampleEvs xs)))

/-- C6: starting from a closed session on a fresh file, the event sequence
start, N samples, stop, start, M samples, stop produces a file holding
exactly two header rows and N + M data rows, with each session's data rows
following that session's own header in original arrival order and none
lost. -/
theorem C6_two_sessions (s0 : MainWindowState) (xs ys : List (ℚ × String))
    (h0 : s0.csv_file = false) (h1 : s0.file_name ≠ "") (h2 : s0.file_rows = [])
    (hxs : ∀ q ∈ xs, (parse q.2).isSome = true) (hys : ∀ q ∈ ys, (parse q.2).isSome = true) :
    (MainWindow.runEvents s0 (twoSessionEvents xs ys)).file_rows
      = CsvRow.header :: (MainWindow.dataTrace (MainWindow.start_reading s0) xs
        ++ CsvRow.header :: MainWindow.dataTrace (secondSessionStart s0 xs) ys) ∧
    (MainWindow.dataTrace (MainWindow.start_reading s0) xs).length = xs.length ∧
    (MainWindow.dataTrace (secondSessionStart s0 xs) ys).length = ys.length ∧
    (MainWindow.runEvents s0 (twoSessionEvents xs ys)).file_rows.countP
        (fun row => row.isHeader) = 2 ∧
    (MainWindow.runEvents s0 (twoSessionEvents xs ys)).file_rows.length
      = 2 + (xs.length + ys.length) := by
  have hsA : MainWindow.start_reading s0
      = { s0 with csv_file := true, csv_writer := true,
                  file_rows := s0.file_rows ++ [CsvRow.header], status_active := true } := by
    simp [MainWindow.start_reading, h0, h1]
  have hAw : (MainWindow.start_reading s0).csv_writer = true := by rw [hsA]
  have hArows : (MainWindow.start_reading s0).file_rows = [CsvRow.header] := by
    rw [hsA]; simp [h2]
  obtain ⟨hBr, hBf, hBw, hBn⟩ :=
    MainWindow.runEvents_samples_open xs (MainWindow.start_reading s0) hAw
  have hAn : (MainWindow.start_reading s0).file_name = s0.file_name := by rw [hsA]
  have hCf : (MainWindow.stop_reading
      (MainWindow.runEvents (MainWindow.start_reading s0) (sampleEvs xs))).csv_file = false := rfl
  have hCn : (MainWindow.stop_reading
      (MainWindow.runEvents (MainWindow.start_reading s0) (sampleEvs xs))).file_name
      = s0.file_name := by
    simp [MainWindow.stop_reading, hBn, hAn]
  have hCrows : (MainWindow.stop_reading
      (MainWindow.runEvents (MainWindow.start_reading s0) (sampleEvs xs))).file_rows
      = CsvRow.header :: MainWindow.dataTrace (MainWindow.start_reading s0) xs := by
    simp only [MainWindow.stop_reading]
    rw [hBr, hArows]
    rfl
  have hD : secondSessionStart s0 xs
      = { MainWindow.stop_reading
            (MainWindow.runEvents (MainWindow.start_reading s0) (sampleEvs xs)) with
          csv_file := true, csv_writer := true,
          file_rows := (MainWindow.stop_reading
            (MainWindow.runEvents (MainWindow.start_reading s0) (sampleEvs xs))).file_rows
              ++ [CsvRow.header],
          status_active := true } := by
    unfold secondSessionStart
    rw [MainWindow.start_reading.eq_def]
    rw [hCf]
    simp [h1, hCn]
  have hDw : (secondSessionStart s0 xs).csv_writer = true := by rw [hD]
  have hDrows : (secondSessionStart s0 xs).file_rows
      = (CsvRow.header :: MainWindow.dataTrace (MainWindow.start_reading s0) xs)
          ++ [CsvRow.header] := by
    rw [hD]
    simp only []
    rw [hCrows]
  obtain ⟨hEr, hEf, hEw, hEn⟩ :=
    MainWindow.runEvents_samples_open ys (secondSessionStart s0 xs) hDw
  have hdecomp : MainWindow.runEvents s0 (twoSessionEvents xs ys)
      = MainWindow.stop_reading
          (MainWindow.runEvents (secondSessionStart s0 xs) (sampleEvs ys)) := by
    simp [twoSessionEvents, secondSessionStart, MainWindow.runEvents,
      List.foldl_append, MainWindow.step]
  have hrows : (MainWindow.runEvents s0 (twoSessionEvents xs ys)).file_rows
      = CsvRow.header :: (MainWindow.dataTrace (MainWindow.start_reading s0) xs
        ++ CsvRow.header :: MainWindow.dataTrace (secondSessionStart s0 xs) ys) := by
    rw [hdecomp]
    show (MainWindow.runEvents (secondSessionStart s0 xs) (sampleEvs ys)).file_rows = _
    rw [hEr, hDrows]
    simp
  have hlen1 := MainWindow.dataTrace_length xs (MainWindow.start_reading s0) hxs
  have hlen2 := MainWindow.dataTrace_length ys (secondSessionStart s0 xs) hys
  refine ⟨hrows, hlen1, hlen2, ?_, ?_⟩
  · rw [hrows]
    have hz1 : (MainWindow.dataTrace (MainWindow.start_reading s0) xs).countP
        (fun row => row.isHeader) = 0 :=
      List.countP_eq_zero.mpr fun row hrow => by
        simp [MainWindow.dataTrace_no_header xs _ row hrow]
    have hz2 : (MainWindow.dataTrace (secondSessionStart s0 xs) ys).countP
        (fun row => row.isHeader) = 0 :=
      List.countP_eq_zero.mpr fun row hrow => by
        simp [MainWindow.dataTrace_no_header ys _ row hrow]
    simp [List.countP_cons, List.countP_append, hz1, hz2,
      show CsvRow.isHeader CsvRow.header = true from rfl]
  · rw [hrows]
    simp [hlen1, hlen2]
    omega

/-- C6 witness: two samples in the first session and one in the second,
all using the sample line of the source comment, from the fresh window
state. -/
theorem C6_two_sessions_witness :
    ((MainWindow.init 0).csv_file = false ∧ (MainWindow.init 0).file_name ≠ "" ∧
     (MainWindow.init 0).file_rows = [] ∧
     (∀ q ∈ [((1 : ℚ), goodLine), ((2 : ℚ), goodLine)], (parse q.2).isSome = true) ∧
     (∀ q ∈ [((3 : ℚ), goodLine)], (parse q.2).isSome = true)) ∧
    ((MainWindow.runEvents (MainWindow.init 0)
        (twoSessionEvents [((1 : ℚ), goodLine), ((2 : ℚ), goodLine)] [((3 : ℚ), goodLine)])).file_rows
      = CsvRow.header :: (MainWindow.dataTrace (MainWindow.start_reading (MainWindow.init 0))
            [((1 : ℚ), goodLine), ((2 : ℚ), goodLine)]
        ++ CsvRow.header :: MainWindow.dataTrace
            (secondSessionStart (MainWindow.init 0) [((1 : ℚ), goodLine), ((2 : ℚ), goodLine)])
            [((3 : ℚ), goodLine)]) ∧
     (MainWindow.dataTrace (MainWindow.start_reading (MainWindow.init 0))
        [((1 : ℚ), goodLine), ((2 : ℚ), goodLine)]).length
      = ([((1 : ℚ), goodLine), ((2 : ℚ), goodLine)] : List (ℚ × String)).length ∧
     (MainWindow.dataTrace
        (secondSessionStart (MainWindow.init 0) [((1 : ℚ), goodLine), ((2 : ℚ), goodLine)])
        [((3 : ℚ), goodLine)]).length = ([((3 : ℚ), goodLine)] : List (ℚ × String)).length ∧
     (MainWindow.runEvents (MainWindow.init 0)
        (twoSessionEvents [((1 : ℚ), goodLine), ((2 : ℚ), goodLine)] [((3 : ℚ), goodLine)])).file_rows.countP
        (fun row => row.isHeader) = 2 ∧
     (MainWindow.runEvents (MainWindow.init 0)
        (twoSessionEvents [((1 : ℚ), goodLine), ((2 : ℚ), goodLine)] [((3 : ℚ), goodLine)])).file_rows.length
      = 2 + (([((1 : ℚ), goodLine), ((2 : ℚ), goodLine)] : List (ℚ × String)).length
          + ([((3 : ℚ), goodLine)] : List (ℚ × String)).length)) :=
  ⟨⟨rfl, by decide, rfl, by decide, by decide⟩,
   C6_two_sessions (MainWindow.init 0) [((1 : ℚ), goodLine), ((2 : ℚ), goodLine)]
     [((3 : ℚ), goodLine)] rfl (by decide) rfl (by decide) (by decide)⟩
